import Mathlib

/-!
Verification of the graphqlws-subscription websocket transport
(`transport/websocket.go` and its companions) against its specification.

The Go source is shallowly embedded: pure fragments become Lean functions,
the stateful read-loop and subscription bookkeeping become explicit state
passing, Go maps become association lists with map semantics, byte slices
become `String` over their characters (all inputs of interest are ASCII, so
`Char.toNat` is the byte value), and external calls (the JSON decoder, the
GraphQL execution service, the init hook) become parameters that carry the
result the external collaborator returned.
-/

namespace GraphqlWs

/-- Semantic message kinds of the transport (the `…MessageType` constants of
the codec).  Both wire dialects map onto this one enumeration. -/
inductive MessageType where
  | initMsg
  | connectionAck
  | keepAlive
  | connectionError
  | startMsg
  | dataMsg
  | errorMsg
  | completeMsg
  | stopMsg
  | connectionClose
  | ping
  | pong
  deriving DecidableEq, Repr

/-- The `message` struct of the codec: kind, optional client id, payload
bytes (a `json.RawMessage`, here a `String` of bytes; empty = absent). -/
structure message where
  t : MessageType
  id : String := ""
  payload : String := ""
  deriving DecidableEq, Repr

/-- The two wire dialects: `legacy` is `graphql-ws` (also chosen for an empty
negotiated subprotocol), `modern` is `graphql-transport-ws`. -/
inductive Dialect where
  | legacy
  | modern
  deriving DecidableEq, Repr

/-- Gorilla's `websocket.CloseNormalClosure`. -/
def CloseNormalClosure : Nat := 1000

/-- Gorilla's `websocket.CloseProtocolError`. -/
def CloseProtocolError : Nat := 1002

/-- Gorilla's `websocket.CloseNoStatusReceived`. -/
def CloseNoStatusReceived : Nat := 1005

/-- Gorilla's `websocket.CloseAbnormalClosure`. -/
def CloseAbnormalClosure : Nat := 1006

/-- Scalar JSON values, the payload domain of the execution service in the
scenarios of interest (`json.Marshal` is total on these). -/
inductive Json where
  | null
  | bool (b : Bool)
  | num (n : Int)
  | str (s : String)
  deriving DecidableEq, Repr

/-- Go's `json.Marshal` on a scalar value (strings here contain no characters
that Go would escape). -/
def jsonMarshal : Json → String
  | .null => "null"
  | .bool b => cond b "true" "false"
  | .num n => toString n
  | .str s => "\"" ++ s ++ "\""

/-- The bytes of an ASCII string, as numbers. -/
def strBytes (s : String) : List Nat :=
  s.toList.map Char.toNat

/-- The standard base64 alphabet, indexed. -/
def b64Digit (n : Nat) : Char :=
  "ABCDEFGHIJKLMNOPQRSTUVWXYZabcdefghijklmnopqrstuvwxyz0123456789+/".toList.getD n '='

/-- Standard base64 encoding of a byte list, with `=` padding, as produced by
Go's `encoding/base64` (used by `json.Marshal` on a `[]byte`). -/
def base64Encode : List Nat → String
  | [] => ""
  | [a] =>
    String.mk [b64Digit (a / 4), b64Digit (a % 4 * 16), '=', '=']
  | [a, b] =>
    String.mk [b64Digit (a / 4), b64Digit (a % 4 * 16 + b / 16), b64Digit (b % 16 * 4), '=']
  | a :: b :: c :: rest =>
    String.mk [b64Digit (a / 4), b64Digit (a % 4 * 16 + b / 16),
      b64Digit (b % 16 * 4 + c / 64), b64Digit (c % 64)] ++ base64Encode rest

/-- Go's `json.Marshal` applied to a value of static type `[]byte`: a JSON
string holding the base64 encoding of the bytes. -/
def marshalBytes (s : String) : String :=
  "\"" ++ base64Encode (strBytes s) ++ "\""

/-- `json.Marshal` of a `&gqlerror.Error{Message: msg}` (all other fields are
zero and `omitempty`). -/
def marshalGqlError (msg : String) : String :=
  "\x7b\"message\":\"" ++ msg ++ "\"\x7d"

/-- `json.Marshal` of the `[]error` slice built by `sendError` from a list of
`*gqlerror.Error` values carrying the given messages. -/
def marshalGqlErrors (msgs : List String) : String :=
  "[" ++ String.intercalate "," (msgs.map marshalGqlError) ++ "]"

/-- `wsConnection.sendResponse`: `json.Marshal` the (already JSON-encoded)
response bytes a second time — base64-encoding them, since their static type
is `[]byte` — and emit a `data` frame. -/
def sendResponse (id : String) (response : String) : message :=
  { t := .dataMsg, id := id, payload := marshalBytes response }

/-- The frame written by `wsConnection.complete`. -/
def completeFrame (id : String) : message :=
  { t := .completeMsg, id := id }

/-- The frame written by `wsConnection.sendError` for errors with the given
messages. -/
def errFrame (id : String) (msgs : List String) : message :=
  { t := .errorMsg, id := id, payload := marshalGqlErrors msgs }

/-- The frame written by `wsConnection.sendConnectionError` (no id). -/
def connErrFrame (msg : String) : message :=
  { t := .connectionError, payload := marshalGqlError msg }

/-! ### The subscription registry (`wsConnection.active`)

A Go `map[string]context.CancelFunc`; cancel functions are represented by
numeric tokens.  The association list keeps map semantics: assignment
overwrites, `delete` removes the key. -/

/-- `c.active[id] = tok` — Go map assignment, overwriting any previous
binding of `id`. -/
def regInsert (reg : List (String × Nat)) (id : String) (tok : Nat) : List (String × Nat) :=
  (id, tok) :: reg.filter (fun e => e.1 ≠ id)

/-- `delete(c.active, id)` — Go map deletion. -/
def regDelete (reg : List (String × Nat)) (id : String) : List (String × Nat) :=
  reg.filter (fun e => e.1 ≠ id)

/-! ### The subscription task (`wsConnection.subscribe`, lines 312–372) -/

/-- A value received from the execution service's payload channel
(`interface{}`): either a JSON-encodable value, or one on which
`json.Marshal` fails with the given error message. -/
inductive GoVal where
  | jsonVal (j : Json)
  | badVal (errMsg : String)
  deriving DecidableEq, Repr

/-- `json.Marshal(payload)` inside the streaming loop. -/
def marshalGoVal : GoVal → Except String String
  | .jsonVal j => .ok (jsonMarshal j)
  | .badVal e => .error e

/-- The streaming loop of the subscription task: for each payload received
before the channel closes (or the child context is cancelled), emit a `data`
frame via `sendResponse`; on a marshal failure emit an id-scoped `error`
(`toGQLError(err)`) and continue. -/
def streamFrames (id : String) : List GoVal → List message
  | [] => []
  | v :: rest =>
    match marshalGoVal v with
    | .error e => errFrame id [e] :: streamFrames id rest
    | .ok s => sendResponse id s :: streamFrames id rest

/-- The deferred terminal frame of the subscription task: the accumulated
subscription errors if any (`len(errs) != 0`), otherwise `complete`. -/
def terminalFrame (id : String) (errs : List String) : message :=
  if errs.length ≠ 0 then errFrame id errs else completeFrame id

/-- How one `start` message resolves: its payload fails to decode; or the
external `Subscribe` returns a synchronous error; or a task runs, receiving
`vals` from the producer before it terminates, with `errs` the subscription
errors accumulated in the capture channel by then. -/
inductive StartOutcome where
  | badJson
  | subscribeErr (e : String)
  | streamRun (vals : List GoVal) (errs : List String)
  deriving DecidableEq, Repr

/-- Every outbound frame `wsConnection.subscribe` produces for one `start`
with id `id`, in order: the synchronous failure paths emit
`error`+`complete`; a running task emits its stream frames and then its
deferred terminal frame. -/
def startOutbound (id : String) : StartOutcome → List message
  | .badJson => [errFrame id ["invalid json"], completeFrame id]
  | .subscribeErr e => [errFrame id [e], completeFrame id]
  | .streamRun vals errs => streamFrames id vals ++ [terminalFrame id errs]

/-- A frame of terminal kind for an id: `complete` or `error`. -/
def isTerminalFrame (m : message) : Bool :=
  m.t = .completeMsg || m.t = .errorMsg

/-- The synchronous part of `wsConnection.subscribe`: frames written before
returning, the registry afterwards, whether the external `Subscribe` was
invoked, and whether a background task was spawned.  `dec` is the result the
JSON decoder returned for the start payload; `service` is the external
`Subscribe` call; `tok` the fresh cancel handle. -/
structure SubscribeResult where
  out : List message
  active : List (String × Nat)
  subscribeCalled : Bool
  spawned : Bool
  deriving DecidableEq, Repr

/-- The decoded `startMessagePayload` struct. -/
structure startMessagePayload where
  operationName : String
  query : String
  deriving DecidableEq, Repr

/-- `wsConnection.subscribe` up to spawning the task (lines 312–336). -/
def wsSubscribe (active : List (String × Nat)) (id : String)
    (dec : Option startMessagePayload) (service : startMessagePayload → Except String Unit)
    (tok : Nat) : SubscribeResult :=
  match dec with
  | none =>
    { out := [errFrame id ["invalid json"], completeFrame id],
      active := active, subscribeCalled := false, spawned := false }
  | some p =>
    match service p with
    | .error e =>
      { out := [errFrame id [e], completeFrame id],
        active := active, subscribeCalled := true, spawned := false }
    | .ok _ =>
      { out := [], active := regInsert active id tok,
        subscribeCalled := true, spawned := true }

/-- Observable effects of the deferred block at the end of the subscription
task (lines 340–352). -/
structure TaskExit where
  out : List message
  active : List (String × Nat)
  cancelInvoked : Bool
  drained : List GoVal
  producerResidual : List GoVal
  deriving DecidableEq, Repr

/-- The deferred block of the subscription task: emit the terminal frame
(accumulated errors, else `complete`), `delete(c.active, msg.id)`, call the
task's own cancel, then drain the producer channel (`for range payloads`),
consuming every residual item and leaving it empty. -/
def taskExitStep (active : List (String × Nat)) (id : String) (errs : List String)
    (residual : List GoVal) : TaskExit :=
  { out := [terminalFrame id errs],
    active := regDelete active id,
    cancelInvoked := true,
    drained := residual,
    producerResidual := [] }

/-! ### Registry vs. live tasks (spec §3 invariant 2)

A small trace semantics over the two pieces of state that the invariant
relates: the registry map `active`, and the set of background tasks that have
not yet run their terminal step.  Cancel handles are numbered in order of
creation. -/

structure DupState where
  active : List (String × Nat)
  tasks : List (Nat × String)
  nextTok : Nat
  deriving DecidableEq, Repr

/-- Events that touch the registry: a successful `start` (register the fresh
cancel under the message id — Go map assignment, overwriting — and spawn a
task), and a task reaching its terminal step (which runs
`delete(c.active, msg.id)` for its own message id, unconditionally). -/
inductive DupEvent where
  | startEv (id : String)
  | termEv (tok : Nat)
  deriving DecidableEq, Repr

def dupStep (s : DupState) : DupEvent → DupState
  | .startEv id =>
    { active := regInsert s.active id s.nextTok,
      tasks := s.tasks ++ [(s.nextTok, id)],
      nextTok := s.nextTok + 1 }
  | .termEv tok =>
    match s.tasks.lookup tok with
    | none => s
    | some id =>
      { active := regDelete s.active id,
        tasks := s.tasks.filter (fun p => p.1 ≠ tok),
        nextTok := s.nextTok }

def dupRun (evs : List DupEvent) : DupState :=
  evs.foldl dupStep { active := [], tasks := [], nextTok := 0 }

/-- Spec §3 invariant 2, decidably: the registry key set equals exactly the
set of ids of tasks that have not yet reached their terminal step. -/
def registryMatchesLive (s : DupState) : Bool :=
  s.tasks.all (fun p => (s.active.lookup p.2).isSome) &&
    s.active.all (fun e => s.tasks.any (fun p => p.2 = e.1))

/-! ### Subscription error capture channel

Modelled from the spec: the file defining `withSubscriptionErrorContext`,
`AddSubscriptionError`, `getSubscriptionError` and
`getSubscriptionErrorStruct` is not under `src/` (only its tests are).  Per
§4.F the channel is a context-scoped, append-only list: `install_on` attaches
a fresh mutable slot, `append` on a non-installed context is a no-op that
does not fail, `collect` returns the snapshot in insertion order (empty when
not installed).  A context is its optional slot; errors are their messages. -/

/-- A context, reduced to its subscription-error slot: `none` when the slot
was never installed. -/
def ErrCtx : Type := Option (List String)

/-- Modelled from the spec: `withSubscriptionErrorContext` installs a fresh
empty slot. -/
def withSubscriptionErrorContext (_ : ErrCtx) : ErrCtx :=
  some []

/-- Modelled from the spec: `AddSubscriptionError` appends to the slot when
installed and is a failure-free no-op otherwise. -/
def addSubscriptionError (c : ErrCtx) (e : String) : ErrCtx :=
  match c with
  | none => none
  | some l => some (l ++ [e])

/-- Modelled from the spec: `getSubscriptionError` returns the snapshot in
insertion order, empty when the slot was never installed. -/
def getSubscriptionError (c : ErrCtx) : List String :=
  match c with
  | none => []
  | some l => l

/-! ### Close-error normalisation

Modelled from the spec: `handleNextReaderError` and `errWsConnClosed` are
declared in a file not under `src/` (only `websocket-subprotocol_test.go`
is).  Per §4.B, a close error with code `NormalClosure` or
`NoStatusReceived` becomes `errWsConnClosed`; every other close error and
every non-close error is returned verbatim. -/

/-- An error returned by the underlying frame read: a gorilla
`*websocket.CloseError` with its code, the distinguished `errWsConnClosed`,
or any other error (by its message). -/
inductive wsError where
  | closeErr (code : Nat) (text : String)
  | wsConnClosed
  | plainErr (s : String)
  deriving DecidableEq, Repr

/-- Modelled from the spec: `handleNextReaderError`. -/
def handleNextReaderError (e : wsError) : wsError :=
  match e with
  | .closeErr code _ =>
    if code = CloseNormalClosure ∨ code = CloseNoStatusReceived then .wsConnClosed else e
  | _ => e

/-! ### Dialect exchangers (outbound direction)

Modelled from the spec: the two message-exchanger files are not under
`src/`.  Per §4.A each dialect's codec only knows wire tokens for its own
kind table — `keep_alive` and `connection_terminate` exist only in `legacy`,
`ping`/`pong` only in `modern`; `connection_error` is absent from the modern
table.  `Send` of a kind outside the table fails without writing a frame, so
the wire carries exactly the writes whose kind the dialect can encode. -/

/-- Modelled from the spec: whether dialect `d` has a wire token for kind
`t` (§4.A kind tables). -/
def sendOk (d : Dialect) (t : MessageType) : Bool :=
  match d, t with
  | .legacy, .ping => false
  | .legacy, .pong => false
  | .legacy, _ => true
  | .modern, .keepAlive => false
  | .modern, .connectionClose => false
  | .modern, .connectionError => false
  | .modern, _ => true

/-- The frames that actually reach the wire from a list of `c.write` calls,
for the given dialect. -/
def wireFrames (d : Dialect) (writes : List message) : List message :=
  writes.filter (fun m => sendOk d m.t)

/-! ### Init handshake (`wsConnection.init`, lines 144–200, and
`nextMessageWithTimeout`, lines 123–142) -/

/-- Errors `me.NextMessage` (or the timeout race) can yield: the
`errReadTimeout` sentinel, the codec's `errInvalidMsg`, or any other read
error. -/
inductive readErr where
  | readTimeout
  | invalidMsg
  | otherRead (s : String)
  deriving DecidableEq, Repr

/-- `nextMessageWithTimeout`: race the reader goroutine against
`time.After(timeout)`.  `arr` is the instant at which the underlying
`NextMessage` call completes (`none`: it never does), `res` what it returns
then; the reader wins exactly when it completes strictly before the timer
fires. -/
def nextMessageWithTimeout (timeout : Nat) (arr : Option Nat)
    (res : Except readErr message) : Except readErr message :=
  match arr with
  | none => .error .readTimeout
  | some t => if t < timeout then res else .error .readTimeout

/-- What `wsConnection.init` leaves behind: the frames it wrote, the close
frame it sent (if any), and its boolean result — `Do` enters the read loop
(`conn.run()`) iff that boolean is `true`. -/
structure InitOutcome where
  writes : List message
  closeFrame : Option (Nat × String)
  proceed : Bool
  deriving DecidableEq, Repr

/-- `wsConnection.init` after its first read returned `r`.  `payloadOk` is
whether `jsonDecode` accepts the init frame's payload (relevant only when
that payload is non-empty); `hook` is the configured `InitFunc` — `none`
when unset, `some none` when it succeeds, `some (some e)` when it fails with
message `e`. -/
def wsInitHandle (r : Except readErr message) (payloadOk : Bool)
    (hook : Option (Option String)) : InitOutcome :=
  match r with
  | .error .readTimeout =>
    { writes := [], closeFrame := some (CloseProtocolError, "connection initialisation timeout"),
      proceed := false }
  | .error .invalidMsg =>
    { writes := [connErrFrame "invalid json"],
      closeFrame := some (CloseProtocolError, "decoding error"), proceed := false }
  | .error (.otherRead _) =>
    { writes := [], closeFrame := some (CloseProtocolError, "decoding error"), proceed := false }
  | .ok m =>
    match m.t with
    | .initMsg =>
      if !m.payload.isEmpty && !payloadOk then
        { writes := [], closeFrame := none, proceed := false }
      else
        match hook with
        | some (some e) =>
          { writes := [connErrFrame e],
            closeFrame := some (CloseNormalClosure, "terminated"), proceed := false }
        | _ =>
          { writes := [{ t := .connectionAck }, { t := .keepAlive }],
            closeFrame := none, proceed := true }
    | .connectionClose =>
      { writes := [], closeFrame := some (CloseNormalClosure, "terminated"), proceed := false }
    | _ =>
      { writes := [connErrFrame "unexpected message"],
        closeFrame := some (CloseProtocolError, "unexpected message"), proceed := false }

/-- `wsConnection.init` (lines 144–200): when `InitTimeout` is non-zero the
first read is raced against the timeout, otherwise `me.NextMessage()` is
called directly; the result is then handled as above. -/
def wsInit (initTimeout : Nat) (arr : Option Nat) (res : Except readErr message)
    (payloadOk : Bool) (hook : Option (Option String)) : InitOutcome :=
  wsInitHandle
    (if initTimeout ≠ 0 then nextMessageWithTimeout initTimeout arr res else res)
    payloadOk hook

/-! ### The read loop (`wsConnection.run`, lines 244–276) -/

/-- The configuration fields of `Websocket` the loop consults. -/
structure WsConfig where
  initTimeout : Nat
  keepAlivePingInterval : Nat
  pingPongInterval : Nat
  deriving DecidableEq, Repr

/-- Connection state visible to one dispatch of the read loop. -/
structure RunState where
  out : List message
  active : List (String × Nat)
  readDeadline : Option Nat
  cancelled : List Nat
  closed : Option (Nat × String)
  stopLoop : Bool
  deriving DecidableEq, Repr

/-- One dispatch of the `Ready`-state read loop on an inbound message `m` at
instant `now`.  `dec`, `service` and `tok` resolve the external calls the
`start` branch makes (as in `wsSubscribe`).  The `pong` branch is the code's
`c.conn.SetReadDeadline(time.Now().UTC().Add(2 * c.PingPongInterval))` —
note it consults neither the dialect nor the sign of `PingPongInterval`. -/
def runStep (cfg : WsConfig) (d : Dialect) (now : Nat)
    (dec : Option startMessagePayload) (service : startMessagePayload → Except String Unit)
    (tok : Nat) (st : RunState) (m : message) : RunState :=
  let _ := d
  match m.t with
  | .startMsg =>
    let r := wsSubscribe st.active m.id dec service tok
    { st with out := st.out ++ r.out, active := r.active }
  | .stopMsg =>
    match st.active.lookup m.id with
    | some c => { st with cancelled := st.cancelled ++ [c] }
    | none => st
  | .connectionClose =>
    { st with closed := some (CloseNormalClosure, "terminated"), stopLoop := true }
  | .ping =>
    { st with out := st.out ++ [{ t := .pong, payload := m.payload }] }
  | .pong =>
    { st with readDeadline := some (now + 2 * cfg.pingPongInterval) }
  | _ =>
    { st with
      out := st.out ++ [connErrFrame "unexpected message"],
      closed := some (CloseProtocolError, "unexpected message"),
      stopLoop := true }

/-! ## Theorems -/

/-- Helper: `delete(c.active, id)` leaves no binding for `id`. -/
theorem lookup_regDelete (reg : List (String × Nat)) (id : String) :
    (regDelete reg id).lookup id = none := by
  induction reg with
  | nil => rfl
  | cons e rest ih =>
    obtain ⟨k, v⟩ := e
    by_cases h : k = id
    · simpa [regDelete, List.filter_cons, h] using ih
    · have hne : (id == k) = false := by simp [Ne.symm h]
      simp only [regDelete, List.filter_cons] at ih ⊢
      simp [h, List.lookup, hne, ih]
      exact fun a b _ hna => Ne.symm hna

/-- Helper: the streaming loop tags every frame with the subscription id. -/
theorem streamFrames_all_id (id : String) (vals : List GoVal) :
    (streamFrames id vals).all (fun m => m.id = id) = true := by
  induction vals with
  | nil => rfl
  | cons v rest ih =>
    cases v with
    | jsonVal j => simpa [streamFrames, marshalGoVal, sendResponse] using ih
    | badVal e => simpa [streamFrames, marshalGoVal, errFrame] using ih

/-- Helper: the streaming loop emits only `data` and `error` frames, never a
`complete`. -/
theorem streamFrames_no_complete (id : String) (vals : List GoVal) :
    (streamFrames id vals).countP (fun m => m.t = .completeMsg) = 0 := by
  induction vals with
  | nil => rfl
  | cons v rest ih =>
    cases v with
    | jsonVal j => simpa [streamFrames, marshalGoVal, sendResponse, List.countP_cons] using ih
    | badVal e => simpa [streamFrames, marshalGoVal, errFrame, List.countP_cons] using ih

/-- Helper: appending to an installed error slot accumulates in insertion
order. -/
theorem foldl_addSubscriptionError (errs : List String) (l : List String) :
    errs.foldl addSubscriptionError (some l) = some (l ++ errs) := by
  induction errs generalizing l with
  | nil => simp
  | cons e rest ih => simp [addSubscriptionError, ih]

/-- Helper: the only branch of the init handler that proceeds to the read
loop is the successful-handshake branch, which wrote exactly
`connection_ack` then `keep_alive`. -/
theorem wsInitHandle_writes_of_proceed (r : Except readErr message) (pOk : Bool)
    (hook : Option (Option String)) (h : (wsInitHandle r pOk hook).proceed = true) :
    (wsInitHandle r pOk hook).writes =
      [{ t := .connectionAck, id := "", payload := "" },
       { t := .keepAlive, id := "", payload := "" }] := by
  cases r with
  | error e => cases e <;> simp [wsInitHandle] at h
  | ok m =>
    obtain ⟨t, id, payload⟩ := m
    cases t <;> simp [wsInitHandle] at h ⊢
    by_cases hp : payload.isEmpty = false ∧ pOk = false
    · simp [hp] at h
    · rcases hook with _ | he
      · simp [hp]
      · rcases he with _ | e
        · simp [hp]
        · simp [hp] at h

/-- C1: in the legacy single-subscription scenario (start id `"1"`, service
payloads `1, 2, 3`, channel closed), the task emits three `data` frames with
id `"1"` followed by one `complete` — but their payloads are *not* the JSON
encodings `1`, `2`, `3`: `sendResponse` re-marshals the already-encoded
`[]byte`, so each payload is the JSON string of its base64 encoding
(`"MQ=="`, `"Mg=="`, `"Mw=="`). -/
theorem c1_legacy_stream_emits_base64_not_json :
    startOutbound "1" (.streamRun [.jsonVal (.num 1), .jsonVal (.num 2), .jsonVal (.num 3)] []) =
      [{ t := .dataMsg, id := "1", payload := "\"MQ==\"" },
       { t := .dataMsg, id := "1", payload := "\"Mg==\"" },
       { t := .dataMsg, id := "1", payload := "\"Mw==\"" },
       { t := .completeMsg, id := "1", payload := "" }] ∧
    (startOutbound "1"
        (.streamRun [.jsonVal (.num 1), .jsonVal (.num 2), .jsonVal (.num 3)] [])).map
        message.payload ≠ ["1", "2", "3", ""] := by
  constructor
  · rfl
  · decide

/-- C2: whenever `init` succeeds (proceeds to the read loop), the frames that
reach the wire are exactly `connection_ack` first, followed by one
`keep_alive` iff the dialect is legacy — the modern exchanger has no wire
token for `keep_alive`, so its unconditional write never produces a frame. -/
theorem c2_ack_then_keepalive_iff_legacy (d : Dialect) (T : Nat) (arr : Option Nat)
    (res : Except readErr message) (pOk : Bool) (hook : Option (Option String))
    (h : (wsInit T arr res pOk hook).proceed = true) :
    wireFrames d (wsInit T arr res pOk hook).writes =
      { t := .connectionAck, id := "", payload := "" } ::
        (if d = .legacy then [{ t := .keepAlive, id := "", payload := "" }] else []) := by
  have hw := wsInitHandle_writes_of_proceed
    (if T ≠ 0 then nextMessageWithTimeout T arr res else res) pOk hook h
  unfold wsInit at hw ⊢
  rw [hw]
  cases d <;> rfl

/-- C2 witness: a modern-dialect connection with an immediate plain `init`
gets exactly one `connection_ack` and no `keep_alive` on the wire. -/
theorem c2_ack_keepalive_witness :
    wireFrames .modern (wsInit 0 none (.ok { t := .initMsg }) true none).writes =
      [{ t := .connectionAck, id := "", payload := "" }] := by
  have := c2_ack_then_keepalive_iff_legacy .modern 0 none (.ok { t := .initMsg }) true none rfl
  simpa using this

/-- C3: a second `start` reusing the live id `"1"` overwrites the registry
entry; when the first task later reaches its terminal step it runs
`delete(c.active, "1")`, removing the *new* subscription's registration —
leaving the registry empty while task 1 is still live, so the registry key
set no longer equals the live-task id set. -/
theorem c3_duplicate_start_breaks_registry :
    registryMatchesLive (dupRun [.startEv "1", .startEv "1", .termEv 0]) = false ∧
    (dupRun [.startEv "1", .startEv "1", .termEv 0]).active = [] ∧
    (dupRun [.startEv "1", .startEv "1", .termEv 0]).tasks = [(1, "1")] :=
  ⟨rfl, rfl, rfl⟩

/-- C4 counterexample: a `start` with id `"1"` whose payload fails to decode
makes the code emit an id-scoped `error` and then a `complete` — two frames
of terminal kind, not exactly one, and a frame with that id follows the
first terminal frame. -/
theorem c4_counterexample_two_terminals :
    ¬ ((startOutbound "1" StartOutcome.badJson).countP (fun f => isTerminalFrame f) = 1) ∧
    startOutbound "1" StartOutcome.badJson =
      [errFrame "1" ["invalid json"], completeFrame "1"] ∧
    (startOutbound "1" StartOutcome.badJson).countP (fun f => isTerminalFrame f) = 2 :=
  ⟨by decide, rfl, by decide⟩

/-- C4 (amended): for every subscription id introduced by `start`, the
outbound frame sequence for that id is nonempty, ends with a terminal frame
(`complete` or `error`) carrying that id, every frame carries that id, and
no `complete` occurs before the last frame — but terminal-kind `error`
frames may precede the final frame. -/
theorem c4_last_frame_terminal (id : String) (o : StartOutcome) :
    startOutbound id o ≠ [] ∧
    isTerminalFrame ((startOutbound id o).getLastD { t := .startMsg }) = true ∧
    ((startOutbound id o).getLastD { t := .startMsg }).id = id ∧
    (startOutbound id o).all (fun m => m.id = id) = true ∧
    ((startOutbound id o).dropLast).countP (fun m => m.t = .completeMsg) = 0 := by
  cases o with
  | badJson =>
    refine ⟨?_, ?_, ?_, ?_, ?_⟩ <;>
      simp [startOutbound, errFrame, completeFrame, isTerminalFrame]
  | subscribeErr e =>
    refine ⟨?_, ?_, ?_, ?_, ?_⟩ <;>
      simp [startOutbound, errFrame, completeFrame, isTerminalFrame]
  | streamRun vals errs =>
    have hterm : isTerminalFrame (terminalFrame id errs) = true ∧
        (terminalFrame id errs).id = id := by
      simp only [terminalFrame]
      split <;> simp [isTerminalFrame, errFrame, completeFrame]
    refine ⟨?_, ?_, ?_, ?_, ?_⟩
    · simp [startOutbound]
    · simp [startOutbound, List.getLastD_concat, hterm.1]
    · simp [startOutbound, List.getLastD_concat, hterm.2]
    · simp [startOutbound, List.all_append, streamFrames_all_id, hterm.2]
    · simp [startOutbound, List.dropLast_concat, streamFrames_no_complete]

/-- C5: a close error with code `NormalClosure` or `NoStatusReceived` is
normalised to `errWsConnClosed`; every other close error and every non-close
error passes through unchanged. -/
theorem c5_close_error_normalisation (code : Nat) (text s : String) :
    ((code = CloseNormalClosure ∨ code = CloseNoStatusReceived) →
      handleNextReaderError (.closeErr code text) = .wsConnClosed) ∧
    (code ≠ CloseNormalClosure → code ≠ CloseNoStatusReceived →
      handleNextReaderError (.closeErr code text) = .closeErr code text) ∧
    handleNextReaderError (.plainErr s) = .plainErr s := by
  refine ⟨fun h => ?_, fun h1 h2 => ?_, rfl⟩
  · simp [handleNextReaderError, h]
  · simp [handleNextReaderError, h1, h2]

/-- C5 witness: the concrete cases of `TestHandleNextReaderError` — code
1000 normalises, code 1006 and a plain error pass through. -/
theorem c5_close_error_normalisation_witness :
    handleNextReaderError (.closeErr 1000 "") = .wsConnClosed ∧
    handleNextReaderError (.closeErr 1006 "") = .closeErr 1006 "" ∧
    handleNextReaderError (.plainErr "some other error") = .plainErr "some other error" :=
  ⟨(c5_close_error_normalisation 1000 "" "some other error").1 (Or.inl rfl),
   (c5_close_error_normalisation 1006 "" "some other error").2.1 (by decide) (by decide),
   (c5_close_error_normalisation 1006 "" "some other error").2.2⟩

/-- C6: a `start` whose payload fails to decode makes `subscribe` emit an
id-scoped `error` with message "invalid json" followed by `complete`, never
invoke the external `Subscribe`, and leave the registry untouched. -/
theorem c6_invalid_start_payload (active : List (String × Nat)) (id : String)
    (service : startMessagePayload → Except String Unit) (tok : Nat) :
    wsSubscribe active id none service tok =
      { out := [{ t := .errorMsg, id := id,
                  payload := "[\x7b\"message\":\"invalid json\"\x7d]" },
                { t := .completeMsg, id := id, payload := "" }],
        active := active, subscribeCalled := false, spawned := false } :=
  rfl

/-- C7: at termination the subscription task emits one id-scoped `error`
carrying the accumulated subscription errors when that list is non-empty and
one `complete` otherwise, removes its id from the registry (so a lookup of
the id finds nothing), invokes its own cancel, and drains every residual
producer item. -/
theorem c7_task_terminal_step (active : List (String × Nat)) (id : String)
    (errs : List String) (residual : List GoVal) :
    (taskExitStep active id errs residual).out =
      [if errs.length ≠ 0 then errFrame id errs else completeFrame id] ∧
    (taskExitStep active id errs residual).active = regDelete active id ∧
    ((taskExitStep active id errs residual).active).lookup id = none ∧
    (taskExitStep active id errs residual).cancelInvoked = true ∧
    (taskExitStep active id errs residual).drained = residual ∧
    (taskExitStep active id errs residual).producerResidual = [] :=
  ⟨rfl, rfl, lookup_regDelete active id, rfl, rfl, rfl⟩

/-- C8: with a non-zero `InitTimeout` and no first message arriving within
it, `init` closes with `ProtocolError` and reason "connection initialisation
timeout" and does not proceed to the read loop; with `InitTimeout = 0` the
outcome is independent of when (or whether) the first message arrives. -/
theorem c8_init_timeout_behaviour (T : Nat) (arr : Option Nat) (res : Except readErr message)
    (pOk : Bool) (hook : Option (Option String)) :
    (T ≠ 0 → (∀ t, arr = some t → T ≤ t) →
      wsInit T arr res pOk hook =
        { writes := [],
          closeFrame := some (CloseProtocolError, "connection initialisation timeout"),
          proceed := false }) ∧
    (∀ arr', wsInit 0 arr res pOk hook = wsInit 0 arr' res pOk hook) := by
  constructor
  · intro hT hArr
    have hr : (if T ≠ 0 then nextMessageWithTimeout T arr res else res) =
        .error .readTimeout := by
      rw [if_pos hT]
      cases arr with
      | none => rfl
      | some t => simp [nextMessageWithTimeout, Nat.not_lt.mpr (hArr t rfl)]
    unfold wsInit
    rw [hr]
    rfl
  · intro arr'
    simp [wsInit]

/-- C8 witness: `InitTimeout = 7` with a never-arriving first message closes
with the timeout reason; `InitTimeout = 0` gives the same outcome whether
the first message arrives never or at instant 99. -/
theorem c8_init_timeout_witness :
    wsInit 7 none (.ok { t := .initMsg }) true none =
      { writes := [],
        closeFrame := some (CloseProtocolError, "connection initialisation timeout"),
        proceed := false } ∧
    wsInit 0 none (.ok { t := .initMsg }) true none =
      wsInit 0 (some 99) (.ok { t := .initMsg }) true none :=
  ⟨(c8_init_timeout_behaviour 7 none (.ok { t := .initMsg }) true none).1
      (by decide) (fun t ht => nomatch ht),
   (c8_init_timeout_behaviour 0 none (.ok { t := .initMsg }) true none).2 (some 99)⟩

/-- C9: appending a subscription error on a context without an installed
slot is a failure-free no-op, collecting on such a context yields the empty
list, and collecting on an installed context returns exactly the deposited
errors in insertion order. -/
theorem c9_error_capture_channel (c : ErrCtx) (e : String) (errs : List String) :
    addSubscriptionError none e = none ∧
    getSubscriptionError none = [] ∧
    getSubscriptionError (errs.foldl addSubscriptionError (withSubscriptionErrorContext c)) =
      errs := by
  refine ⟨rfl, rfl, ?_⟩
  simp [withSubscriptionErrorContext, foldl_addSubscriptionError, getSubscriptionError]

/-- C10: in the Ready state an inbound `pong` sets the read deadline to
`now + 2 * PingPongInterval` for every dialect and configuration, changing
nothing else; in particular with `PingPongInterval = 0` the deadline becomes
the current instant. -/
theorem c10_pong_sets_read_deadline (cfg : WsConfig) (d : Dialect) (now : Nat)
    (dec : Option startMessagePayload) (service : startMessagePayload → Except String Unit)
    (tok : Nat) (st : RunState) (p : String) :
    runStep cfg d now dec service tok st { t := .pong, payload := p } =
      { st with readDeadline := some (now + 2 * cfg.pingPongInterval) } ∧
    (∀ it ka : Nat,
      runStep { initTimeout := it, keepAlivePingInterval := ka, pingPongInterval := 0 }
          d now dec service tok st { t := .pong, payload := p } =
        { st with readDeadline := some now }) := by
  refine ⟨rfl, fun it ka => ?_⟩
  simp [runStep]

end GraphqlWs
